import Mathlib

/-!
Shallow embedding of `src/openr/config-store/PersistentStore.cpp` (the
Open/R persistent key-value store) and proofs about its behaviour.

The in-memory database (`thrift::StoreDatabase`, a map `keyVals` from
string keys to string values) is embedded as an association list with the
map operations used by the source (`operator[]` assignment, `find`,
`erase`).  The event-loop timer is embedded as an `Option Nat` (`none` =
not scheduled, `some d` = scheduled with delay `d` ms).  Disk and
serializer failures are supplied as boolean oracles in a `DiskEnv`; an
uncaught exception escaping a `noexcept` function (which terminates the
process) is modelled as the result `none`.
-/

set_option autoImplicit false

namespace Openr

/-- Keys and values are strings; `std::unordered_map<std::string, std::string>`
is embedded as an association list with unique keys. -/
abbrev Db := List (String × String)

/-- `map[k] = v`: insert or overwrite unconditionally
(PersistentStore.cpp line 105). -/
def dbInsert (db : Db) (k v : String) : Db :=
  match db with
  | [] => [(k, v)]
  | (k', v') :: rest =>
      if k' = k then (k, v) :: rest else (k', v') :: dbInsert rest k v

/-- `map.find(k)`: the value stored at `k`, if any
(PersistentStore.cpp lines 110-113). -/
def dbFind (db : Db) (k : String) : Option String :=
  match db with
  | [] => none
  | (k', v) :: rest => if k' = k then some v else dbFind rest k

/-- Whether `k` is present, i.e. `map.find(k) != map.end()`. -/
def dbContains (db : Db) (k : String) : Bool :=
  (dbFind db k).isSome

/-- `map.erase(k)`: remove the entry (entries) keyed `k`
(PersistentStore.cpp line 117). -/
def dbErase (db : Db) (k : String) : Db :=
  match db with
  | [] => []
  | (k', v) :: rest =>
      if k' = k then dbErase rest k else (k', v) :: dbErase rest k

/-- `thrift::StoreDatabase`: the in-memory database image. -/
structure StoreDatabase where
  keyVals : Db
deriving DecidableEq

/-- `thrift::StoreRequestType` with a constructor for an unrecognized tag
(the `default:` case of the switch at PersistentStore.cpp line 120). -/
inductive StoreRequestType where
  | STORE
  | LOAD
  | ERASE
  | UNKNOWN
deriving DecidableEq

/-- `thrift::StoreRequest`: operation tag, key, and (for STORE) a value. -/
structure StoreRequest where
  requestType : StoreRequestType
  key : String
  data : String
deriving DecidableEq

/-- `thrift::StoreResponse`; a default-constructed response has empty key,
`success = false` and empty data. -/
structure StoreResponse where
  key : String := ""
  success : Bool := false
  data : String := ""
deriving DecidableEq

/-- Modelled from the spec: `ExponentialBackoff` is referenced by
PersistentStore.cpp (line 45) but its implementation is not among the
provided sources.  The spec (sections 3 and 4.2) describes it as holding an
initial delay, a maximum delay and a current delay; the current delay is the
initial delay on a clean streak, doubles (capped at the maximum) on each
reported failure, and resets to the initial delay on a reported success. -/
structure ExponentialBackoff where
  initialBackoff : Nat
  maxBackoff : Nat
  currentBackoff : Nat
deriving DecidableEq

namespace ExponentialBackoff

/-- Modelled from the spec: construction from the two caller-supplied
durations; a fresh scheduler's current delay is the initial delay. -/
def create (initialBackoff maxBackoff : Nat) : ExponentialBackoff :=
  ⟨initialBackoff, maxBackoff, initialBackoff⟩

/-- Modelled from the spec: on a successful flush the current delay resets
to the initial value (streak cleared). -/
def reportSuccess (b : ExponentialBackoff) : ExponentialBackoff :=
  { b with currentBackoff := b.initialBackoff }

/-- Modelled from the spec: on a failed flush the current delay doubles,
capped at the configured maximum. -/
def reportError (b : ExponentialBackoff) : ExponentialBackoff :=
  { b with currentBackoff := min (2 * b.currentBackoff) b.maxBackoff }

/-- Modelled from the spec: the delay after which the next flush attempt is
scheduled is the scheduler's current delay. -/
def getTimeRemainingUntilRetry (b : ExponentialBackoff) : Nat :=
  b.currentBackoff

end ExponentialBackoff

/-- Contents of the storage file.  The wire format is an external
serializer boundary; the spec requires only that it round-trips exactly, so
a file either holds a validly encoded database image or undecodable bytes. -/
inductive FileData where
  | valid : StoreDatabase → FileData
  | corrupt : FileData
deriving DecidableEq

/-- `serializer_.serialize(database_, ...)`: encode the image
(the file written at PersistentStore.cpp line 158). -/
def serialize (db : StoreDatabase) : FileData :=
  FileData.valid db

/-- `serializer_.deserialize(...)`: decode file contents back into a
`StoreDatabase`, failing on undecodable bytes
(PersistentStore.cpp line 183, failure caught at line 186). -/
def deserialize (fd : FileData) : Option StoreDatabase :=
  match fd with
  | FileData.valid db => some db
  | FileData.corrupt => none

/-- Failure oracles for one disk interaction: whether the thrift
serialization step succeeds (it sits outside the `try` block at
PersistentStore.cpp lines 150-153) and whether `folly::writeFileAtomic`
succeeds. -/
structure DiskEnv where
  serializeOk : Bool
  writeOk : Bool
deriving DecidableEq

/-- An environment where serialization and the file write both succeed. -/
def goodEnv : DiskEnv := ⟨true, true⟩

/-- The state of a `PersistentStore`: the in-memory image, the optional
backoff mechanism (`saveDbTimerBackoff_`, absent when both configured
delays are zero), the save timer (`saveDbTimer_`, `some d` when
`isScheduled()` with delay `d`), the storage file's contents (`none` when
the file does not exist) and the write counter. -/
structure PersistentStore where
  database : StoreDatabase
  saveDbTimerBackoff : Option ExponentialBackoff
  saveDbTimer : Option Nat
  diskFile : Option FileData
  numOfWritesToDisk : Nat
deriving DecidableEq

/-- `PersistentStore::saveDatabaseToDisk` (lines 147-167): serialize the
image, then inside a `try` block write it atomically to the storage path
and bump the write counter; a failure of the write is caught and yields
`false`.  The serialization itself happens before the `try`, and the
function is `noexcept`, so a serialization failure is modelled as `none`
(uncaught exception, process termination). -/
def saveDatabaseToDisk (s : PersistentStore) (env : DiskEnv) :
    Option (PersistentStore × Bool) :=
  if env.serializeOk then
    if env.writeOk then
      some ({ s with
                diskFile := some (serialize s.database),
                numOfWritesToDisk := s.numOfWritesToDisk + 1 }, true)
    else
      some (s, false)
  else
    none

/-- `PersistentStore::loadDatabaseFromDisk` (lines 169-191): read the whole
file (failing if it is missing or unreadable, `readOk` oracle), decode it,
and only on a complete successful decode replace `database_`. -/
def loadDatabaseFromDisk (s : PersistentStore) (readOk : Bool) :
    PersistentStore × Bool :=
  match s.diskFile with
  | none => (s, false)
  | some fd =>
      if readOk then
        match deserialize fd with
        | none => (s, false)
        | some db => ({ s with database := db }, true)
      else
        (s, false)

/-- The `switch (request->requestType)` of `PersistentStore::processRequest`
(lines 100-125): compute the new image and the response for one decoded
request.  The response key echoes the request key (line 101). -/
def handleRequest (db : StoreDatabase) (request : StoreRequest) :
    StoreDatabase × StoreResponse :=
  match request.requestType with
  | StoreRequestType.STORE =>
      (⟨dbInsert db.keyVals request.key request.data⟩,
       { key := request.key, success := true })
  | StoreRequestType.LOAD =>
      let it := dbFind db.keyVals request.key
      (db, { key := request.key, success := it.isSome, data := it.getD "" })
  | StoreRequestType.ERASE =>
      (⟨dbErase db.keyVals request.key⟩,
       { key := request.key, success := dbContains db.keyVals request.key })
  | StoreRequestType.UNKNOWN =>
      (db, { key := request.key, success := false })

/-- `PersistentStore::processRequest` (lines 86-145): decode the request
(`none` models a receive/decode error, answered with a default response),
run the switch, then on a successful non-LOAD request either save
synchronously (no backoff configured) or arm the save timer if it is not
already scheduled.  The returned response is what is sent on the socket. -/
def processRequest (s : PersistentStore) (req : Option StoreRequest)
    (env : DiskEnv) : Option (PersistentStore × StoreResponse) :=
  match req with
  | none => some (s, {})
  | some request =>
      let res := handleRequest s.database request
      let s' := { s with database := res.1 }
      let response := res.2
      if response.success ∧ request.requestType ≠ StoreRequestType.LOAD then
        match s'.saveDbTimerBackoff with
        | none =>
            match saveDatabaseToDisk s' env with
            | none => none
            | some (s'', _) => some (s'', response)
        | some b =>
            match s'.saveDbTimer with
            | none =>
                some ({ s' with
                          saveDbTimer := some b.getTimeRemainingUntilRetry },
                      response)
            | some _ => some (s', response)
      else
        some (s', response)

/-- The save-timer callback (lines 48-57): when the timer fires it is no
longer scheduled; the image is saved, and on success the backoff resets
while on failure the backoff grows and the timer is rescheduled with the
new retry delay. -/
def saveTimerCallback (s : PersistentStore) (env : DiskEnv) :
    Option PersistentStore :=
  let s₀ := { s with saveDbTimer := none }
  match s₀.saveDbTimerBackoff with
  | none => some s₀
  | some b =>
      match saveDatabaseToDisk s₀ env with
      | none => none
      | some (s₁, ok) =>
          if ok then
            some { s₁ with saveDbTimerBackoff := some b.reportSuccess }
          else
            some { s₁ with
                     saveDbTimerBackoff := some b.reportError,
                     saveDbTimer :=
                       some b.reportError.getTimeRemainingUntilRetry }

/-- `PersistentStore::PersistentStore` (lines 19-66): create the backoff
mechanism and timer only if at least one of the two delays is nonzero, then
load the initial database from disk, continuing with an empty image on
failure. -/
def PersistentStore.create (saveInitialBackoff saveMaxBackoff : Nat)
    (disk : Option FileData) (readOk : Bool) : PersistentStore :=
  let backoff :=
    if saveInitialBackoff ≠ 0 ∨ saveMaxBackoff ≠ 0 then
      some (ExponentialBackoff.create saveInitialBackoff saveMaxBackoff)
    else
      none
  let s : PersistentStore :=
    { database := ⟨[]⟩
      saveDbTimerBackoff := backoff
      saveDbTimer := none
      diskFile := disk
      numOfWritesToDisk := 0 }
  (loadDatabaseFromDisk s readOk).1

/-- Process a list of decoded requests in order, collecting the responses;
a crash (`none`) propagates. -/
def processAll (s : PersistentStore) (reqs : List StoreRequest)
    (env : DiskEnv) : Option (PersistentStore × List StoreResponse) :=
  match reqs with
  | [] => some (s, [])
  | r :: rest =>
      match processRequest s (some r) env with
      | none => none
      | some (s', resp) =>
          match processAll s' rest env with
          | none => none
          | some (s'', resps) => some (s'', resp :: resps)

/-- `k` consecutive reported failures. -/
def afterFailures (b : ExponentialBackoff) (k : Nat) : ExponentialBackoff :=
  match k with
  | 0 => b
  | Nat.succ k' => (afterFailures b k').reportError

/-- The image produced by a sequence of STORE operations applied to an
empty image. -/
def buildDb (ops : List (String × String)) : Db :=
  ops.foldl (fun d p => dbInsert d p.1 p.2) []

/-! Section: Basic lemmas about the map operations -/

theorem dbFind_dbInsert_self (db : Db) (k v : String) :
    dbFind (dbInsert db k v) k = some v := by
  induction db with
  | nil => simp [dbInsert, dbFind]
  | cons hd tl ih =>
      obtain ⟨k', v'⟩ := hd
      by_cases h : k' = k
      · simp [dbInsert, h, dbFind]
      · simp [dbInsert, h, dbFind, ih]

theorem dbFind_dbErase_self (db : Db) (k : String) :
    dbFind (dbErase db k) k = none := by
  induction db with
  | nil => simp [dbErase, dbFind]
  | cons hd tl ih =>
      obtain ⟨k', v'⟩ := hd
      by_cases h : k' = k
      · simp [dbErase, h, ih]
      · simp [dbErase, h, dbFind, ih]

theorem dbErase_of_find_none (db : Db) (k : String)
    (h : dbFind db k = none) : dbErase db k = db := by
  induction db with
  | nil => rfl
  | cons hd tl ih =>
      obtain ⟨k', v'⟩ := hd
      by_cases hk : k' = k
      · simp [dbFind, hk] at h
      · simp [dbFind, hk] at h
        simp [dbErase, hk, ih h]

/-! Section: Helper lemmas about the backoff mechanism and the store -/

theorem afterFailures_fields (b : ExponentialBackoff) (k : Nat) :
    (afterFailures b k).initialBackoff = b.initialBackoff
    ∧ (afterFailures b k).maxBackoff = b.maxBackoff := by
  induction k with
  | zero => exact ⟨rfl, rfl⟩
  | succ k ih => simpa [afterFailures, ExponentialBackoff.reportError] using ih

theorem afterFailures_le_max (b : ExponentialBackoff)
    (h : b.currentBackoff ≤ b.maxBackoff) (k : Nat) :
    (afterFailures b k).currentBackoff ≤ b.maxBackoff := by
  induction k with
  | zero => exact h
  | succ k ih =>
      have hf := (afterFailures_fields b k).2
      simp only [afterFailures, ExponentialBackoff.reportError]
      exact le_trans (Nat.min_le_right _ _) (le_of_eq hf)

theorem loadDatabaseFromDisk_fields (s : PersistentStore) (ro : Bool) :
    (loadDatabaseFromDisk s ro).1.saveDbTimerBackoff = s.saveDbTimerBackoff
    ∧ (loadDatabaseFromDisk s ro).1.saveDbTimer = s.saveDbTimer
    ∧ (loadDatabaseFromDisk s ro).1.diskFile = s.diskFile
    ∧ (loadDatabaseFromDisk s ro).1.numOfWritesToDisk = s.numOfWritesToDisk := by
  rcases hd : s.diskFile with _ | fd
  · simp [loadDatabaseFromDisk, hd]
  · cases ro with
    | false => simp [loadDatabaseFromDisk, hd]
    | true =>
        cases fd with
        | valid db => simp [loadDatabaseFromDisk, hd, deserialize]
        | corrupt => simp [loadDatabaseFromDisk, hd, deserialize]

theorem processRequest_preserves_when_armed (s : PersistentStore)
    (b : ExponentialBackoff) (d : Nat) (req : StoreRequest) (env : DiskEnv)
    (hb : s.saveDbTimerBackoff = some b) (ht : s.saveDbTimer = some d) :
    processRequest s (some req) env =
      some ({ s with database := (handleRequest s.database req).1 },
            (handleRequest s.database req).2) := by
  by_cases hcond : (handleRequest s.database req).2.success = true
      ∧ req.requestType ≠ StoreRequestType.LOAD
  · simp [processRequest, hb, ht, hcond]
  · simp [processRequest, hcond]

theorem processAll_armed (s : PersistentStore) (b : ExponentialBackoff)
    (d : Nat) (reqs : List StoreRequest) (env : DiskEnv)
    (hb : s.saveDbTimerBackoff = some b) (ht : s.saveDbTimer = some d) :
    ∃ db resps, processAll s reqs env = some ({ s with database := db }, resps) := by
  induction reqs generalizing s with
  | nil => exact ⟨s.database, [], rfl⟩
  | cons r rest ih =>
      obtain ⟨db, resps, hrest⟩ :=
        ih { s with database := (handleRequest s.database r).1 } hb ht
      refine ⟨db, (handleRequest s.database r).2 :: resps, ?_⟩
      simp [processAll, processRequest_preserves_when_armed s b d r env hb ht,
        hrest]

theorem create_saveDbTimerBackoff (init max : Nat) (disk : Option FileData)
    (ro : Bool) :
    (PersistentStore.create init max disk ro).saveDbTimerBackoff =
      if init ≠ 0 ∨ max ≠ 0 then some (ExponentialBackoff.create init max)
      else none := by
  unfold PersistentStore.create
  exact (loadDatabaseFromDisk_fields _ ro).1

/-! Section: Claim theorems -/

/-- C6: starting from an empty image, the sequence STORE("a","1"),
LOAD("a"), ERASE("a"), LOAD("a") yields the responses
(key "a", success), (key "a", success, value "1"), (key "a", success),
(key "a", failure); in general STORE inserts or overwrites unconditionally
and always succeeds, and LOAD succeeds iff the key is present, returning
its stored value. -/
theorem store_load_erase_scenario :
    (processAll (PersistentStore.create 0 0 none true)
        [⟨StoreRequestType.STORE, "a", "1"⟩, ⟨StoreRequestType.LOAD, "a", ""⟩,
         ⟨StoreRequestType.ERASE, "a", ""⟩, ⟨StoreRequestType.LOAD, "a", ""⟩]
        goodEnv).map Prod.snd =
      some [⟨"a", true, ""⟩, ⟨"a", true, "1"⟩, ⟨"a", true, ""⟩,
            ⟨"a", false, ""⟩]
    ∧ (∀ (db : StoreDatabase) (k v : String),
        handleRequest db ⟨StoreRequestType.STORE, k, v⟩ =
          (⟨dbInsert db.keyVals k v⟩, ⟨k, true, ""⟩))
    ∧ (∀ (l : Db) (k v : String), dbFind (dbInsert l k v) k = some v)
    ∧ (∀ (db : StoreDatabase) (k d : String),
        handleRequest db ⟨StoreRequestType.LOAD, k, d⟩ =
          (db, ⟨k, (dbFind db.keyVals k).isSome, (dbFind db.keyVals k).getD ""⟩)) := by
  refine ⟨by decide, fun db k v => rfl, dbFind_dbInsert_self,
    fun db k d => rfl⟩

/-- C7: ERASE succeeds exactly when the key was present and removes it;
when the key is absent it returns failure and leaves the image unchanged;
a second ERASE of the same key fails, and a LOAD of an erased key fails. -/
theorem erase_semantics (db : StoreDatabase) (k d : String) :
    (handleRequest db ⟨StoreRequestType.ERASE, k, d⟩).2.success =
        dbContains db.keyVals k
    ∧ dbContains
        (handleRequest db ⟨StoreRequestType.ERASE, k, d⟩).1.keyVals k = false
    ∧ (dbContains db.keyVals k = false →
        (handleRequest db ⟨StoreRequestType.ERASE, k, d⟩).1 = db)
    ∧ (handleRequest (handleRequest db ⟨StoreRequestType.ERASE, k, d⟩).1
        ⟨StoreRequestType.ERASE, k, d⟩).2.success = false
    ∧ (handleRequest (handleRequest db ⟨StoreRequestType.ERASE, k, d⟩).1
        ⟨StoreRequestType.LOAD, k, d⟩).2.success = false := by
  refine ⟨rfl, ?_, ?_, ?_, ?_⟩
  · simp [handleRequest, dbContains, dbFind_dbErase_self]
  · intro h
    rw [dbContains] at h
    cases hfind : dbFind db.keyVals k with
    | none => simp [handleRequest, dbErase_of_find_none db.keyVals k hfind]
    | some v => rw [hfind] at h; simp at h
  · simp [handleRequest, dbContains, dbFind_dbErase_self]
  · simp [handleRequest, dbContains, dbFind_dbErase_self]

/-- C7 witness: the ERASE semantics instantiated at the one-entry image
holding key "a". -/
theorem erase_semantics_witness :
    (handleRequest ⟨[("a", "1")]⟩ ⟨StoreRequestType.ERASE, "a", ""⟩).2.success =
        dbContains [("a", "1")] "a"
    ∧ dbContains
        (handleRequest ⟨[("a", "1")]⟩
          ⟨StoreRequestType.ERASE, "a", ""⟩).1.keyVals "a" = false
    ∧ (dbContains [("a", "1")] "a" = false →
        (handleRequest ⟨[("a", "1")]⟩
          ⟨StoreRequestType.ERASE, "a", ""⟩).1 = ⟨[("a", "1")]⟩)
    ∧ (handleRequest
        (handleRequest ⟨[("a", "1")]⟩ ⟨StoreRequestType.ERASE, "a", ""⟩).1
        ⟨StoreRequestType.ERASE, "a", ""⟩).2.success = false
    ∧ (handleRequest
        (handleRequest ⟨[("a", "1")]⟩ ⟨StoreRequestType.ERASE, "a", ""⟩).1
        ⟨StoreRequestType.LOAD, "a", ""⟩).2.success = false :=
  erase_semantics ⟨[("a", "1")]⟩ "a" ""

/-- C8: an unrecognized operation tag produces a failure response echoing
the request key, with no state change and no persistence; a request that
fails to decode produces a failure response with the default empty key and
no state change; neither path crashes. -/
theorem unknown_and_decode_error (s : PersistentStore) (k d : String)
    (env : DiskEnv) :
    processRequest s (some ⟨StoreRequestType.UNKNOWN, k, d⟩) env =
        some (s, ⟨k, false, ""⟩)
    ∧ processRequest s none env = some (s, ⟨"", false, ""⟩) := by
  constructor
  · simp [processRequest, handleRequest]
  · rfl

/-- C1 counterexample: a store image on which the serialization step fails.
`saveDatabaseToDisk` does not return `false` there: the serialization sits
outside the `try` block of a `noexcept` function, so the exception is
uncaught (modelled as `none`, process termination), contradicting the claim
that any encoding/serialization failure yields `false`. -/
theorem saveDatabase_serialize_failure_crashes :
    saveDatabaseToDisk ⟨⟨[("a", "1")]⟩, none, none, none, 0⟩ ⟨false, true⟩ =
      none := rfl

/-- C1 amended: whenever the serialization step succeeds,
`saveDatabaseToDisk` never crashes: it returns `true` (having written the
encoded image and bumped the write counter) exactly when the file write
succeeded, and on a failed write (permission error, disk full) it returns
`false` leaving the store unchanged. -/
theorem saveDatabase_no_crash_after_serialize (s : PersistentStore)
    (w : Bool) :
    saveDatabaseToDisk s ⟨true, w⟩ =
      some (if w then
              ({ s with diskFile := some (serialize s.database),
                        numOfWritesToDisk := s.numOfWritesToDisk + 1 }, true)
            else (s, false)) := by
  cases w <;> rfl

/-- C10: whenever `loadDatabaseFromDisk` fails (missing file, unreadable
file, or decode failure) it returns `false` and leaves the store — in
particular the in-memory image — exactly as it was; it succeeds exactly by
atomically replacing the image with a completely decoded one. -/
theorem loadDatabase_failure_preserves_image (s : PersistentStore)
    (ro : Bool) :
    ((loadDatabaseFromDisk s ro).2 = false → (loadDatabaseFromDisk s ro).1 = s)
    ∧ (∀ db, s.diskFile = some (FileData.valid db) → ro = true →
        loadDatabaseFromDisk s ro = ({ s with database := db }, true))
    ∧ ((loadDatabaseFromDisk s ro).2 = true →
        ∃ db, s.diskFile = some (FileData.valid db)
          ∧ (loadDatabaseFromDisk s ro).1.database = db) := by
  unfold loadDatabaseFromDisk
  match hd : s.diskFile with
  | none => exact ⟨fun _ => rfl, by simp [hd], by simp⟩
  | some fd =>
      cases ro with
      | false => exact ⟨fun _ => rfl, by simp [hd], by simp⟩
      | true =>
          cases fd with
          | valid db =>
              exact ⟨by simp [deserialize], by simp [hd, deserialize],
                by simp [deserialize, hd]⟩
          | corrupt => exact ⟨fun _ => rfl, by simp [hd], by simp [deserialize]⟩

/-- C10 witness: loading from a missing file fails and preserves the empty
image, and loading a valid one-entry file replaces the image. -/
theorem loadDatabase_failure_preserves_image_witness :
    ((loadDatabaseFromDisk ⟨⟨[]⟩, none, none, none, 0⟩ true).2 = false →
      (loadDatabaseFromDisk ⟨⟨[]⟩, none, none, none, 0⟩ true).1 =
        ⟨⟨[]⟩, none, none, none, 0⟩)
    ∧ (∀ db,
        (⟨⟨[]⟩, none, none, none, 0⟩ : PersistentStore).diskFile =
            some (FileData.valid db) → true = true →
        loadDatabaseFromDisk ⟨⟨[]⟩, none, none, none, 0⟩ true =
          ({ (⟨⟨[]⟩, none, none, none, 0⟩ : PersistentStore) with
               database := db }, true))
    ∧ ((loadDatabaseFromDisk ⟨⟨[]⟩, none, none, none, 0⟩ true).2 = true →
        ∃ db, (⟨⟨[]⟩, none, none, none, 0⟩ : PersistentStore).diskFile =
            some (FileData.valid db)
          ∧ (loadDatabaseFromDisk
              ⟨⟨[]⟩, none, none, none, 0⟩ true).1.database = db) :=
  loadDatabase_failure_preserves_image ⟨⟨[]⟩, none, none, none, 0⟩ true

/-- C2: across a streak of consecutive flush failures the scheduler's
current delay is non-decreasing and never exceeds the configured maximum,
whatever the number `k` of failures, and the first reported success resets
it to the configured initial delay. -/
theorem backoff_monotone_bounded_reset (init max : Nat) (h : init ≤ max)
    (k : Nat) :
    (afterFailures (ExponentialBackoff.create init max) k).currentBackoff ≤
        (afterFailures (ExponentialBackoff.create init max) (k + 1)).currentBackoff
    ∧ (afterFailures (ExponentialBackoff.create init max) k).currentBackoff ≤ max
    ∧ ((afterFailures (ExponentialBackoff.create init max) k).reportSuccess).currentBackoff
        = init := by
  have hmaxf := (afterFailures_fields (ExponentialBackoff.create init max) k).2
  have hinitf := (afterFailures_fields (ExponentialBackoff.create init max) k).1
  have hle : (afterFailures (ExponentialBackoff.create init max) k).currentBackoff
      ≤ max := afterFailures_le_max _ h k
  refine ⟨?_, hle, ?_⟩
  · simp only [afterFailures, ExponentialBackoff.reportError]
    have hmax : (afterFailures (ExponentialBackoff.create init max) k).maxBackoff
        = max := hmaxf
    omega
  · simp only [ExponentialBackoff.reportSuccess]
    exact hinitf

/-- C2 witness: the invariant at initial delay 1 ms, maximum 8 ms, after 3
consecutive failures. -/
theorem backoff_monotone_bounded_reset_witness :
    (afterFailures (ExponentialBackoff.create 1 8) 3).currentBackoff ≤
        (afterFailures (ExponentialBackoff.create 1 8) (3 + 1)).currentBackoff
    ∧ (afterFailures (ExponentialBackoff.create 1 8) 3).currentBackoff ≤ 8
    ∧ ((afterFailures (ExponentialBackoff.create 1 8) 3).reportSuccess).currentBackoff
        = 1 :=
  backoff_monotone_bounded_reset 1 8 (by decide) 3

/-- C3: with the backoff configured and the save timer already scheduled,
processing any list of requests performs no disk write, leaves the file and
the timer untouched, and does not re-arm; when the pending timer then fires
(with the disk healthy) exactly one write of the then-current image
happens. -/
theorem debounce_while_armed (s : PersistentStore) (b : ExponentialBackoff)
    (d : Nat) (reqs : List StoreRequest) (env : DiskEnv)
    (hb : s.saveDbTimerBackoff = some b) (ht : s.saveDbTimer = some d) :
    ∃ p, processAll s reqs env = some p
      ∧ p.1.numOfWritesToDisk = s.numOfWritesToDisk
      ∧ p.1.diskFile = s.diskFile
      ∧ p.1.saveDbTimer = some d
      ∧ p.1.saveDbTimerBackoff = some b
      ∧ ∃ s', saveTimerCallback p.1 goodEnv = some s'
          ∧ s'.numOfWritesToDisk = s.numOfWritesToDisk + 1
          ∧ s'.diskFile = some (serialize p.1.database) := by
  obtain ⟨db, resps, hrun⟩ := processAll_armed s b d reqs env hb ht
  refine ⟨({ s with database := db }, resps), hrun, rfl, rfl, ht, hb, ?_⟩
  have hcb : saveTimerCallback ({ s with database := db }) goodEnv =
      some { database := db, saveDbTimerBackoff := some b.reportSuccess,
             saveDbTimer := none, diskFile := some (serialize db),
             numOfWritesToDisk := s.numOfWritesToDisk + 1 } := by
    simp [saveTimerCallback, hb, saveDatabaseToDisk, goodEnv]
  exact ⟨_, hcb, rfl, rfl⟩

/-- C3 witness: two STORE requests inside the window of an armed timer
cause no write, and the timer firing causes one. -/
theorem debounce_while_armed_witness :
    ∃ p, processAll ⟨⟨[]⟩, some ⟨5, 100, 5⟩, some 5, none, 0⟩
        [⟨StoreRequestType.STORE, "a", "1"⟩, ⟨StoreRequestType.STORE, "b", "2"⟩]
        goodEnv = some p
      ∧ p.1.numOfWritesToDisk = 0
      ∧ p.1.diskFile = none
      ∧ p.1.saveDbTimer = some 5
      ∧ p.1.saveDbTimerBackoff = some ⟨5, 100, 5⟩
      ∧ ∃ s', saveTimerCallback p.1 goodEnv = some s'
          ∧ s'.numOfWritesToDisk = 0 + 1
          ∧ s'.diskFile = some (serialize p.1.database) :=
  debounce_while_armed ⟨⟨[]⟩, some ⟨5, 100, 5⟩, some 5, none, 0⟩ ⟨5, 100, 5⟩ 5
    [⟨StoreRequestType.STORE, "a", "1"⟩, ⟨StoreRequestType.STORE, "b", "2"⟩]
    goodEnv rfl rfl

/-- C4: with the backoff configured and the timer idle, a successful
non-LOAD request arms the timer with the scheduler's current delay, which
is the last computed delay — equal to the configured initial delay on a
scheduler with no prior failures. -/
theorem arm_schedules_current_delay (s : PersistentStore)
    (b : ExponentialBackoff) (req : StoreRequest) (env : DiskEnv)
    (hb : s.saveDbTimerBackoff = some b) (ht : s.saveDbTimer = none)
    (hsucc : (handleRequest s.database req).2.success = true)
    (hmut : req.requestType ≠ StoreRequestType.LOAD) :
    processRequest s (some req) env =
      some ({ s with database := (handleRequest s.database req).1,
                     saveDbTimer := some b.getTimeRemainingUntilRetry },
            (handleRequest s.database req).2)
    ∧ b.getTimeRemainingUntilRetry = b.currentBackoff
    ∧ (ExponentialBackoff.create b.initialBackoff b.maxBackoff).currentBackoff
        = b.initialBackoff := by
  refine ⟨?_, rfl, rfl⟩
  simp [processRequest, hb, ht, hsucc, hmut]

/-- C4 witness: a STORE against an idle timer arms it with the scheduler's
current delay. -/
theorem arm_schedules_current_delay_witness :
    processRequest ⟨⟨[]⟩, some ⟨5, 100, 20⟩, none, none, 0⟩
        (some ⟨StoreRequestType.STORE, "a", "1"⟩) goodEnv =
      some ({ (⟨⟨[]⟩, some ⟨5, 100, 20⟩, none, none, 0⟩ : PersistentStore) with
                database := (handleRequest ⟨[]⟩
                  ⟨StoreRequestType.STORE, "a", "1"⟩).1,
                saveDbTimer :=
                  some (ExponentialBackoff.getTimeRemainingUntilRetry
                    ⟨5, 100, 20⟩) },
            (handleRequest ⟨[]⟩ ⟨StoreRequestType.STORE, "a", "1"⟩).2)
    ∧ ExponentialBackoff.getTimeRemainingUntilRetry ⟨5, 100, 20⟩ =
        ExponentialBackoff.currentBackoff ⟨5, 100, 20⟩
    ∧ (ExponentialBackoff.create
        (ExponentialBackoff.initialBackoff ⟨5, 100, 20⟩)
        (ExponentialBackoff.maxBackoff ⟨5, 100, 20⟩)).currentBackoff =
        ExponentialBackoff.initialBackoff ⟨5, 100, 20⟩ :=
  arm_schedules_current_delay ⟨⟨[]⟩, some ⟨5, 100, 20⟩, none, none, 0⟩
    ⟨5, 100, 20⟩ ⟨StoreRequestType.STORE, "a", "1"⟩ goodEnv rfl rfl rfl
    (by decide)

/-- C5: the scheduler is absent exactly when both configured delays are
zero, and in that mode every successful non-LOAD request saves the database
synchronously before the response is produced, so the on-disk file then
holds the encoding of the mutated image; in particular after a STORE the
saved image contains the stored key and value. -/
theorem sync_mode_persists_synchronously (init max : Nat)
    (disk : Option FileData) (ro : Bool) (s : PersistentStore)
    (k v : String) (hb : s.saveDbTimerBackoff = none) :
    ((PersistentStore.create init max disk ro).saveDbTimerBackoff = none ↔
        init = 0 ∧ max = 0)
    ∧ (∀ req, (handleRequest s.database req).2.success = true →
        req.requestType ≠ StoreRequestType.LOAD →
        processRequest s (some req) goodEnv =
          some ({ s with database := (handleRequest s.database req).1,
                         diskFile :=
                           some (serialize (handleRequest s.database req).1),
                         numOfWritesToDisk := s.numOfWritesToDisk + 1 },
                (handleRequest s.database req).2))
    ∧ processRequest s (some ⟨StoreRequestType.STORE, k, v⟩) goodEnv =
        some ({ s with database := ⟨dbInsert s.database.keyVals k v⟩,
                       diskFile :=
                         some (serialize ⟨dbInsert s.database.keyVals k v⟩),
                       numOfWritesToDisk := s.numOfWritesToDisk + 1 },
              ⟨k, true, ""⟩)
    ∧ dbFind (dbInsert s.database.keyVals k v) k = some v := by
  refine ⟨?_, ?_, ?_, dbFind_dbInsert_self _ _ _⟩
  · rw [create_saveDbTimerBackoff]
    by_cases hnz : init ≠ 0 ∨ max ≠ 0
    · simp only [hnz, if_true, reduceCtorEq]
      constructor
      · intro hfalse
        exact absurd hfalse (by simp)
      · intro hzz
        omega
    · simp only [hnz, if_false]
      constructor
      · intro _
        omega
      · intro _
        trivial
  · intro req hsucc hmut
    simp [processRequest, hb, hsucc, hmut, saveDatabaseToDisk, goodEnv]
  · simp [processRequest, handleRequest, hb, saveDatabaseToDisk, goodEnv]

/-- C5 witness: with both delays zero the created store has no scheduler,
and a STORE against a scheduler-less store writes the file synchronously. -/
theorem sync_mode_persists_synchronously_witness :
    ((PersistentStore.create 0 0 none true).saveDbTimerBackoff = none ↔
        (0 : Nat) = 0 ∧ (0 : Nat) = 0)
    ∧ (∀ req, (handleRequest (⟨[]⟩ : StoreDatabase) req).2.success = true →
        req.requestType ≠ StoreRequestType.LOAD →
        processRequest ⟨⟨[]⟩, none, none, none, 0⟩ (some req) goodEnv =
          some ({ (⟨⟨[]⟩, none, none, none, 0⟩ : PersistentStore) with
                    database := (handleRequest ⟨[]⟩ req).1,
                    diskFile := some (serialize (handleRequest ⟨[]⟩ req).1),
                    numOfWritesToDisk := 0 + 1 },
                (handleRequest ⟨[]⟩ req).2))
    ∧ processRequest ⟨⟨[]⟩, none, none, none, 0⟩
        (some ⟨StoreRequestType.STORE, "a", "1"⟩) goodEnv =
        some ({ (⟨⟨[]⟩, none, none, none, 0⟩ : PersistentStore) with
                  database := ⟨dbInsert [] "a" "1"⟩,
                  diskFile := some (serialize ⟨dbInsert [] "a" "1"⟩),
                  numOfWritesToDisk := 0 + 1 },
              ⟨"a", true, ""⟩)
    ∧ dbFind (dbInsert [] "a" "1") "a" = some "1" :=
  sync_mode_persists_synchronously 0 0 none true ⟨⟨[]⟩, none, none, none, 0⟩
    "a" "1" rfl

/-- C9: for any image produced by a sequence of STORE operations, saving it
and loading the resulting file into a fresh empty store yields an
observationally equal image: every key maps to the same value. -/
theorem save_then_load_roundtrip (ops : List (String × String)) (k : String) :
    ∃ s', saveDatabaseToDisk ⟨⟨buildDb ops⟩, none, none, none, 0⟩ goodEnv =
        some (s', true)
      ∧ dbFind ((loadDatabaseFromDisk
            ⟨⟨[]⟩, none, none, s'.diskFile, 0⟩ true).1).database.keyVals k =
          dbFind (buildDb ops) k :=
  ⟨_, rfl, rfl⟩

end Openr
